import Mathlib

/-!
Shallow embedding of the yamdb_final API core: the identity store and its
signup / token-issue operations (api/views.py), the serializer validation
logic (api/serializers.py), the access-policy predicates (api/permissions.py)
and the review-uniqueness machinery (reviews/models.py, api/serializers.py).

Conventions of the embedding:
* Django model instances become Lean structures; the identity store and the
  review table become lists of such structures.
* `request.user` is modelled by a `User` value carrying an `is_authenticated`
  flag: real model instances always have it `true`, `AnonymousUser` has it
  `false` (and all other boolean flags `false`).
* The random 9-character confirmation code generated in `APISendCode.post`
  is passed in as an explicit argument (the generator is an external source
  of nondeterminism).
* Sending the e-mail is a side effect on an external collaborator and does
  not touch the store; it is not modelled.
* DRF serializer validation is modelled field by field: `required`
  (non-empty), `max_length`, the auto-generated `UniqueValidator`s that a
  `ModelSerializer` derives from `unique=True` model fields, and the
  hand-written `validate_username`. E-mail format checking is abstracted
  away (no claim depends on it).
-/

namespace Yamdb

/-- Role string constants, from reviews/models.py. -/
def USER : String := "user"

/-- Role string constant for administrators, from reviews/models.py. -/
def ADMIN : String := "admin"

/-- Role string constant for moderators, from reviews/models.py. -/
def MODERATOR : String := "moderator"

/-- The declared role choices of the `role` field (CHOICES in
reviews/models.py); a serializer rejects a role outside this list. -/
def CHOICES : List String := [USER, ADMIN, MODERATOR]

/-- The User model (reviews/models.py).  Display-only profile fields
(first_name, last_name) are omitted: no operation modelled here reads them.
`is_authenticated` is `true` on every stored model instance and `false`
exactly on the anonymous request identity. -/
structure User where
  username : String
  email : String
  role : String
  bio : String
  confirmation_code : String
  is_staff : Bool
  is_superuser : Bool
  is_active : Bool
  is_authenticated : Bool
deriving DecidableEq, Repr

/-- User.is_moderator property (reviews/models.py). -/
def User.is_moderator (u : User) : Bool :=
  u.role == MODERATOR

/-- User.is_admin property (reviews/models.py): role == ADMIN or is_staff
or is_superuser. -/
def User.is_admin (u : User) : Bool :=
  u.role == ADMIN || u.is_staff || u.is_superuser

/-- User.is_user property (reviews/models.py). -/
def User.is_user (u : User) : Bool :=
  u.role == USER

/-- HTTP methods relevant to the permission predicates. -/
inductive Method
  | GET
  | HEAD
  | OPTIONS
  | POST
  | PUT
  | PATCH
  | DELETE
deriving DecidableEq, Repr

/-- rest_framework.permissions.SAFE_METHODS. -/
def SAFE_METHODS : List Method := [Method.GET, Method.HEAD, Method.OPTIONS]

/-- The part of a DRF request the permission predicates read: the HTTP
method and the acting identity. -/
structure Request where
  method : Method
  user : User
deriving DecidableEq, Repr

/-- IsAdmin.has_permission (api/permissions.py): `request.user.is_admin`.
The method is not consulted. -/
def IsAdmin.has_permission (request : Request) : Bool :=
  request.user.is_admin

/-- IsAdmin.has_object_permission (api/permissions.py): also
`request.user.is_admin`; the target object is ignored. -/
def IsAdmin.has_object_permission (request : Request) (_obj_author : User) : Bool :=
  request.user.is_admin

/-- IsAdminOrReadOnly.has_permission (api/permissions.py).  `request.user`
is always a truthy object in DRF, so the python `request.user and ...`
conjunct reduces to the rest of the chain. -/
def IsAdminOrReadOnly.has_permission (request : Request) : Bool :=
  decide (request.method ∈ SAFE_METHODS)
    || (request.user.is_authenticated
        && (request.user.role == ADMIN || request.user.is_staff))

/-- IsAuthorOrStaffOrReadOnly.has_object_permission (api/permissions.py).
`request.user == obj.author` compares model identity; with usernames unique
this is structural equality here. -/
def IsAuthorOrStaffOrReadOnly.has_object_permission
    (request : Request) (obj_author : User) : Bool :=
  decide (request.method ∈ SAFE_METHODS)
    || (request.user.is_authenticated
        && (decide (request.user = obj_author)
            || request.user.is_staff
            || request.user.is_admin
            || request.user.is_moderator))

/-- Outcome of the signup endpoint: 200 with the serialized username/email,
or a 400 field-validation failure. -/
inductive CodeResult
  | ok (username email : String)
  | validationError
deriving DecidableEq, Repr

/-- EmailTokenSerializer.is_valid (api/serializers.py): the `me` check of
`validate_username`, the required/max_length field constraints
(username ≤ 40 chars from the model field), and the UniqueValidators that
the ModelSerializer auto-generates from `unique=True` on `username` and
`email`.  Any existing row with the same username or e-mail makes the
payload invalid. -/
def EmailTokenSerializer.isValid (store : List User) (username email : String) : Bool :=
  (username != "me")
    && (username != "") && decide (username.length ≤ 40)
    && (email != "")
    && !(store.any (fun u => u.username == username))
    && !(store.any (fun u => u.email == email))

/-- The User row that `serializer.save(username=..., confirmation_code=...)`
creates on a valid signup: role defaults to USER, staff/superuser flags
default to false, is_active defaults to true. -/
def mkSignupUser (username email confirmation_code : String) : User :=
  { username := username
    email := email
    role := USER
    bio := ""
    confirmation_code := confirmation_code
    is_staff := false
    is_superuser := false
    is_active := true
    is_authenticated := true }

/-- APISendCode.post (api/views.py): validate the payload with
EmailTokenSerializer (raise_exception gives 400 on failure), then
`serializer.save(...)` — a ModelSerializer create — appends a fresh user
row carrying the generated confirmation code. -/
def APISendCode.post (store : List User) (username email confirmation_code : String) :
    CodeResult × List User :=
  if EmailTokenSerializer.isValid store username email then
    (CodeResult.ok username email,
      store ++ [mkSignupUser username email confirmation_code])
  else
    (CodeResult.validationError, store)

/-- Outcome of the token endpoint: 200 with a bearer token carrying the
user identity claim, 400 field validation failure, 404 user not found, or
the 400 authorization failure on a code mismatch. -/
inductive TokenResult
  | token (username : String)
  | fieldError
  | notFound
  | badRequest
deriving DecidableEq, Repr

/-- TokenObtainPairSerializer field validation (api/serializers.py):
username is a required CharField with max_length 40, confirmation_code a
required CharField with max_length 10. -/
def TokenObtainPairSerializer.isValid (username confirmation_code : String) : Bool :=
  (username != "") && decide (username.length ≤ 40)
    && (confirmation_code != "") && decide (confirmation_code.length ≤ 10)

/-- APISendToken.post (api/views.py): serializer validation, then
`get_object_or_404(User, username=...)`, then exact string comparison of
the submitted code against the stored one; on match a token carrying the
user's identity is minted, otherwise a 400 authorization failure.  The
store is returned unchanged: the handler never writes. -/
def APISendToken.post (store : List User) (username confirmation_code : String) :
    TokenResult × List User :=
  if TokenObtainPairSerializer.isValid username confirmation_code then
    match store.find? (fun u => u.username == username) with
    | none => (TokenResult.notFound, store)
    | some user =>
        if confirmation_code == user.confirmation_code then
          (TokenResult.token user.username, store)
        else
          (TokenResult.badRequest, store)
  else
    (TokenResult.fieldError, store)

/-- UserViewSet.user_data, PATCH branch (api/views.py), restricted to the
`role` field (the only field any claim concerns; other writable profile
fields update independently).  `partial=True` makes the field optional;
when supplied it must be one of the declared CHOICES or `is_valid`
raises (modelled as `none`).  If the actor `is_user`, the view saves with
`role=USER`, discarding any payload value; otherwise it saves the payload
value (or leaves the role unchanged when absent). -/
def UserViewSet.user_data_patch (actor : User) (payload_role : Option String) :
    Option User :=
  match payload_role with
  | some r =>
      if r ∈ CHOICES then
        if actor.is_user then some { actor with role := USER }
        else some { actor with role := r }
      else none
  | none =>
      if actor.is_user then some { actor with role := USER }
      else some actor

/-- The Review model (reviews/models.py), with the title foreign key as an
id and the author foreign key as a username. -/
structure Review where
  title : Nat
  author : String
  text : String
  score : Nat
deriving DecidableEq, Repr

/-- The fields of the UniqueConstraint named unique_review in
Review.Meta.constraints (reviews/models.py). -/
def Review.unique_constraint_fields : List String := ["title", "author"]

/-- Review.objects.filter(title=title, author=user).exists() over the
review table. -/
def reviewExists (reviews : List Review) (title : Nat) (author : String) : Bool :=
  reviews.any (fun r => r.title == title && r.author == author)

/-- ReviewSerializer.validate (api/serializers.py): when a review by this
author for this title already exists AND the request method is POST, raise
ValidationError (returns false); every other combination passes. -/
def ReviewSerializer.validate (reviews : List Review) (title : Nat) (author : String)
    (method : Method) : Bool :=
  if reviewExists reviews title author then
    if decide (method ∈ [Method.POST]) then false else true
  else true

/-- The (title, author) uniqueness invariant over the review table that the
storage-level UniqueConstraint maintains. -/
def uniqueTitleAuthor : List Review → Bool
  | [] => true
  | r :: rs => !(reviewExists rs r.title r.author) && uniqueTitleAuthor rs

/-- Storage-level insert under the unique_review UniqueConstraint: the
database rejects a row whose (title, author) pair is already present. -/
def dbInsertReview (reviews : List Review) (r : Review) : Option (List Review) :=
  if reviewExists reviews r.title r.author then none
  else some (reviews ++ [r])

/-! Concrete fixtures used by counterexamples and witnesses. -/

/-- A stored plain user holding a previously issued confirmation code. -/
def alice : User :=
  { username := "alice"
    email := "a@x.com"
    role := USER
    bio := ""
    confirmation_code := "OLDCODE12"
    is_staff := false
    is_superuser := false
    is_active := true
    is_authenticated := true }

/-- An authenticated identity with the plain user role but the staff flag
set. -/
def staffPlainUser : User :=
  { username := "carol"
    email := "c@x.com"
    role := USER
    bio := ""
    confirmation_code := ""
    is_staff := true
    is_superuser := false
    is_active := true
    is_authenticated := true }

/-- An authenticated superuser whose role is the plain user role and whose
staff flag is clear. -/
def superPlainUser : User :=
  { username := "root"
    email := "r@x.com"
    role := USER
    bio := ""
    confirmation_code := ""
    is_staff := false
    is_superuser := true
    is_active := true
    is_authenticated := true }

/-- An authenticated user with the admin role. -/
def adminUser : User :=
  { username := "boss"
    email := "boss@x.com"
    role := ADMIN
    bio := ""
    confirmation_code := ""
    is_staff := false
    is_superuser := false
    is_active := true
    is_authenticated := true }

/-- An authenticated user with the moderator role. -/
def modUser : User :=
  { username := "mod"
    email := "mod@x.com"
    role := MODERATOR
    bio := ""
    confirmation_code := ""
    is_staff := false
    is_superuser := false
    is_active := true
    is_authenticated := true }

/-- The anonymous request identity. -/
def anon : User :=
  { username := ""
    email := ""
    role := ""
    bio := ""
    confirmation_code := ""
    is_staff := false
    is_superuser := false
    is_active := false
    is_authenticated := false }

/-! Claim theorems. -/

/-- C9: a signup request whose username is the literal "me" is rejected
with a ValidationError (400) and the identity store is unchanged — no user
record is created or modified. -/
theorem C9_me_reserved (store : List User) (email code : String) :
    APISendCode.post store "me" email code = (CodeResult.validationError, store) := by
  simp [APISendCode.post, EmailTokenSerializer.isValid]

/-- C3 counterexample: the administrative gate grants access to an identity
whose role is not admin (a staff-flagged plain user), refuting "grants
access only if the acting identity's role is admin". -/
theorem C3_counterexample :
    IsAdmin.has_permission { method := Method.POST, user := staffPlainUser } = true
      ∧ staffPlainUser.role ≠ ADMIN := by
  constructor
  · rfl
  · decide

/-- C3 amended: the administrative gate grants access exactly to identities
with administrative privilege — role admin OR is_staff OR is_superuser
(the User.is_admin property) — and its verdict is independent of the
request method (no read-only carve-out); the object-level check coincides
with the request-level one. -/
theorem C3_admin_gate (m m' : Method) (u a : User) :
    (IsAdmin.has_permission { method := m, user := u } = true ↔
        (u.role = ADMIN ∨ u.is_staff = true ∨ u.is_superuser = true))
      ∧ IsAdmin.has_permission { method := m, user := u }
          = IsAdmin.has_permission { method := m', user := u }
      ∧ IsAdmin.has_object_permission { method := m, user := u } a
          = IsAdmin.has_permission { method := m, user := u } := by
  refine ⟨?_, rfl, rfl⟩
  simp [IsAdmin.has_permission, User.is_admin, or_assoc]

/-- C4: under the admin-or-read-only gate, any identity (anonymous
included) passes on a safe method, and a mutating (non-safe) method passes
exactly when the identity is authenticated and has role admin or the staff
flag. -/
theorem C4_admin_or_read_only (r : Request) :
    (r.method ∈ SAFE_METHODS → IsAdminOrReadOnly.has_permission r = true)
      ∧ (r.method ∉ SAFE_METHODS →
          (IsAdminOrReadOnly.has_permission r = true ↔
            r.user.is_authenticated = true
              ∧ (r.user.role = ADMIN ∨ r.user.is_staff = true))) := by
  constructor
  · intro h
    simp [IsAdminOrReadOnly.has_permission, h]
  · intro h
    simp [IsAdminOrReadOnly.has_permission, h]

/-- C4 witness: an anonymous GET passes the gate, and a POST by an
admin-role identity passes it. -/
theorem C4_witness :
    IsAdminOrReadOnly.has_permission { method := Method.GET, user := anon } = true
      ∧ IsAdminOrReadOnly.has_permission { method := Method.POST, user := adminUser } = true := by
  constructor
  · exact (C4_admin_or_read_only { method := Method.GET, user := anon }).1 (by decide)
  · exact ((C4_admin_or_read_only { method := Method.POST, user := adminUser }).2
      (by decide)).mpr ⟨rfl, Or.inl rfl⟩

/-- C5 counterexample: the owner-or-staff-or-read-only gate permits a
mutating request by a superuser who is not the author, has no staff flag,
and holds neither the admin nor the moderator role — refuting the claim
that mutating access is granted only to the listed four cases. -/
theorem C5_counterexample :
    IsAuthorOrStaffOrReadOnly.has_object_permission
        { method := Method.DELETE, user := superPlainUser } alice = true
      ∧ superPlainUser ≠ alice
      ∧ superPlainUser.is_staff = false
      ∧ superPlainUser.role ≠ ADMIN
      ∧ superPlainUser.role ≠ MODERATOR := by
  refine ⟨by decide, by decide, rfl, by decide, by decide⟩

/-- C5 amended: safe methods are always permitted; a mutating method is
permitted exactly when the identity is authenticated and is the object's
author, or has the staff flag, or has the admin role, or is a superuser
(the last three being the User.is_admin privilege), or has the moderator
role. -/
theorem C5_author_gate (r : Request) (author : User) :
    (r.method ∈ SAFE_METHODS →
        IsAuthorOrStaffOrReadOnly.has_object_permission r author = true)
      ∧ (r.method ∉ SAFE_METHODS →
          (IsAuthorOrStaffOrReadOnly.has_object_permission r author = true ↔
            r.user.is_authenticated = true
              ∧ (r.user = author ∨ r.user.is_staff = true ∨ r.user.role = ADMIN
                  ∨ r.user.is_superuser = true ∨ r.user.role = MODERATOR))) := by
  constructor
  · intro h
    simp [IsAuthorOrStaffOrReadOnly.has_object_permission, h]
  · intro h
    simp only [IsAuthorOrStaffOrReadOnly.has_object_permission, User.is_admin,
      User.is_moderator, Bool.or_eq_true, Bool.and_eq_true, decide_eq_true_eq,
      beq_iff_eq]
    simp only [h, false_or]
    tauto

/-- C5 witness: an anonymous GET on a review is permitted, and a DELETE by
the review's author is permitted. -/
theorem C5_witness :
    IsAuthorOrStaffOrReadOnly.has_object_permission
        { method := Method.GET, user := anon } alice = true
      ∧ IsAuthorOrStaffOrReadOnly.has_object_permission
          { method := Method.DELETE, user := alice } alice = true := by
  constructor
  · exact (C5_author_gate { method := Method.GET, user := anon } alice).1 (by decide)
  · exact ((C5_author_gate { method := Method.DELETE, user := alice } alice).2
      (by decide)).mpr ⟨rfl, Or.inl rfl⟩

/-- C1 counterexample: a signup for an already-stored username is rejected
with a validation error and the store is untouched — the stored
confirmation code is NOT overwritten and no success is returned, refuting
the claimed upsert behaviour. -/
theorem C1_counterexample :
    APISendCode.post [alice] "alice" "b@y.com" "NEWCODE99"
        = (CodeResult.validationError, [alice])
      ∧ (((APISendCode.post [alice] "alice" "b@y.com" "NEWCODE99").2.find?
            (fun u => u.username == "alice")).map (fun u => u.confirmation_code)
          = some "OLDCODE12") := by
  constructor
  · decide
  · decide

/-- C1 amended: signup never upserts.  For a field-valid payload (username
not "me", fields non-empty and within length), if some stored user already
has the requested username or e-mail the request fails validation (400)
and the store is unchanged; only when neither is taken is a new user
created — with role user and the generated confirmation code — and the
serialized username/email returned with success. -/
theorem C1_signup_create_only (store : List User) (username email code : String)
    (h : username ≠ "me" ∧ username ≠ "" ∧ email ≠ "" ∧ username.length ≤ 40) :
    ((store.any (fun u => u.username == username)
          || store.any (fun u => u.email == email)) = true →
        APISendCode.post store username email code
          = (CodeResult.validationError, store))
      ∧ ((store.any (fun u => u.username == username)
            || store.any (fun u => u.email == email)) = false →
          APISendCode.post store username email code
              = (CodeResult.ok username email,
                  store ++ [mkSignupUser username email code])
            ∧ (mkSignupUser username email code).role = USER) := by
  obtain ⟨h1, h2, h3, h4⟩ := h
  constructor
  · intro hex
    rcases Bool.or_eq_true_iff.mp hex with ha | ha
    · have : EmailTokenSerializer.isValid store username email = false := by
        simp [EmailTokenSerializer.isValid, ha]
      simp [APISendCode.post, this]
    · have : EmailTokenSerializer.isValid store username email = false := by
        simp [EmailTokenSerializer.isValid, ha]
      simp [APISendCode.post, this]
  · intro hno
    have hno' := Bool.or_eq_false_iff.mp hno
    have : EmailTokenSerializer.isValid store username email = true := by
      simp [EmailTokenSerializer.isValid, h1, h2, h3, h4, hno'.1, hno'.2]
    refine ⟨by simp [APISendCode.post, this], rfl⟩

/-- C1 amended witness: with Alice stored, re-signup as "alice" fails
validation and leaves the store unchanged, while signup as the fresh
username "bob" creates a bob row with role user. -/
theorem C1_witness :
    APISendCode.post [alice] "alice" "z@z.com" "NEWCODE11"
        = (CodeResult.validationError, [alice])
      ∧ APISendCode.post [alice] "bob" "b@y.com" "NEWCODE11"
          = (CodeResult.ok "bob" "b@y.com",
              [alice] ++ [mkSignupUser "bob" "b@y.com" "NEWCODE11"]) := by
  constructor
  · exact (C1_signup_create_only [alice] "alice" "z@z.com" "NEWCODE11"
      (by refine ⟨by decide, by decide, by decide, by decide⟩)).1 (by decide)
  · exact ((C1_signup_create_only [alice] "bob" "b@y.com" "NEWCODE11"
      (by refine ⟨by decide, by decide, by decide, by decide⟩)).2 (by decide)).1

/-- C2: for a field-valid token request, an absent username yields
NotFound (404); when the user is found, exact equality of the submitted
code with the stored one yields a bearer token carrying the user's
identity, and a differing code yields the 400 authorization failure with
no token issued. -/
theorem C2_obtain_token (store : List User) (username code : String)
    (hv : TokenObtainPairSerializer.isValid username code = true) :
    (store.find? (fun u => u.username == username) = none →
        APISendToken.post store username code = (TokenResult.notFound, store))
      ∧ (∀ u, store.find? (fun u => u.username == username) = some u →
          (code = u.confirmation_code →
              APISendToken.post store username code
                = (TokenResult.token u.username, store))
            ∧ (code ≠ u.confirmation_code →
              APISendToken.post store username code
                = (TokenResult.badRequest, store))) := by
  refine ⟨?_, ?_⟩
  · intro hfind
    simp [APISendToken.post, hv, hfind]
  · intro u hfind
    constructor
    · intro hc
      subst hc
      simp [APISendToken.post, hv, hfind]
    · intro hc
      simp [APISendToken.post, hv, hfind, hc]

/-- C2 witness: against a store holding Alice, an unknown username gives
NotFound, the stored code gives Alice's token, and a wrong code gives the
authorization failure. -/
theorem C2_witness :
    APISendToken.post [alice] "bob" "OLDCODE12" = (TokenResult.notFound, [alice])
      ∧ APISendToken.post [alice] "alice" "OLDCODE12"
          = (TokenResult.token "alice", [alice])
      ∧ APISendToken.post [alice] "alice" "WRONG"
          = (TokenResult.badRequest, [alice]) := by
  refine ⟨?_, ?_, ?_⟩
  · exact (C2_obtain_token [alice] "bob" "OLDCODE12" (by decide)).1 (by decide)
  · exact ((C2_obtain_token [alice] "alice" "OLDCODE12" (by decide)).2 alice
      (by decide)).1 (by decide)
  · exact ((C2_obtain_token [alice] "alice" "WRONG" (by decide)).2 alice
      (by decide)).2 (by decide)

/-- C8: a token request — matched, mismatched, or malformed — never writes
the store, so no code is invalidated, no lockout or retry counter is
recorded, and redemption does not consume the code; consequently after any
attempt the stored code still authenticates its user. -/
theorem C8_token_attempts_stateless (store : List User) (username code : String) :
    ((APISendToken.post store username code).2 = store)
      ∧ (∀ u, store.find? (fun v => v.username == username) = some u →
          TokenObtainPairSerializer.isValid username u.confirmation_code = true →
          APISendToken.post (APISendToken.post store username code).2 username
              u.confirmation_code
            = (TokenResult.token u.username, store)) := by
  have hstate : (APISendToken.post store username code).2 = store := by
    simp only [APISendToken.post]
    split
    · cases hf : store.find? (fun u => u.username == username) with
      | none => simp [hf]
      | some u =>
          simp only [hf]
          split <;> rfl
    · rfl
  refine ⟨hstate, ?_⟩
  intro u hfind hv
  rw [hstate]
  simp [APISendToken.post, hv, hfind]

/-- C8 witness: a failed attempt with a wrong code leaves Alice's store
unchanged and the original stored code still redeems for her token. -/
theorem C8_witness :
    ((APISendToken.post [alice] "alice" "WRONG").2 = [alice])
      ∧ APISendToken.post (APISendToken.post [alice] "alice" "WRONG").2 "alice"
          "OLDCODE12" = (TokenResult.token "alice", [alice]) := by
  refine ⟨(C8_token_attempts_stateless [alice] "alice" "WRONG").1,
    (C8_token_attempts_stateless [alice] "alice" "WRONG").2 alice (by decide)
      (by decide)⟩

/-- Helper: existence of a (title, author) match distributes over list
append. -/
theorem reviewExists_append (l₁ l₂ : List Review) (t : Nat) (a : String) :
    reviewExists (l₁ ++ l₂) t a = (reviewExists l₁ t a || reviewExists l₂ t a) := by
  simp [reviewExists, List.any_append]

/-- Helper: appending a row whose (title, author) pair is absent preserves
the (title, author) uniqueness invariant. -/
theorem uniqueTitleAuthor_append_singleton (l : List Review) (r : Review)
    (h1 : uniqueTitleAuthor l = true)
    (h2 : reviewExists l r.title r.author = false) :
    uniqueTitleAuthor (l ++ [r]) = true := by
  induction l with
  | nil => simp [uniqueTitleAuthor, reviewExists]
  | cons a rs ih =>
      rw [List.cons_append]
      simp only [uniqueTitleAuthor, Bool.and_eq_true, Bool.not_eq_true'] at h1 ⊢
      simp only [reviewExists, List.any_cons, Bool.or_eq_false_iff] at h2
      refine ⟨?_, ih h1.2 h2.2⟩
      rw [reviewExists_append rs [r] a.title a.author]
      simp only [Bool.or_eq_false_iff]
      refine ⟨h1.1, ?_⟩
      simp only [reviewExists, List.any_cons, List.any_nil, Bool.or_false]
      cases hx : (r.title == a.title && r.author == a.author) with
      | false => rfl
      | true =>
          exfalso
          simp only [Bool.and_eq_true, beq_iff_eq] at hx
          simp [hx.1, hx.2] at h2

/-- C6: at most one review per (title, author) pair — the serializer
rejects a POST when a review by that author for that title exists, applies
no duplicate check on any non-POST method (so not on update), the model
carries a storage-level UniqueConstraint on exactly (title, author), and a
constrained insert preserves the pairwise (title, author) uniqueness of
the review table. -/
theorem C6_review_uniqueness :
    (∀ reviews title author, reviewExists reviews title author = true →
        ReviewSerializer.validate reviews title author Method.POST = false)
      ∧ (∀ reviews title author m, m ≠ Method.POST →
          ReviewSerializer.validate reviews title author m = true)
      ∧ Review.unique_constraint_fields = ["title", "author"]
      ∧ (∀ reviews r reviews', uniqueTitleAuthor reviews = true →
          dbInsertReview reviews r = some reviews' →
          uniqueTitleAuthor reviews' = true) := by
  refine ⟨?_, ?_, rfl, ?_⟩
  · intro reviews title author hex
    simp [ReviewSerializer.validate, hex]
  · intro reviews title author m hm
    simp [ReviewSerializer.validate, hm]
  · intro reviews r reviews' h1 h2
    unfold dbInsertReview at h2
    split at h2
    · exact absurd h2 (by simp)
    · rename_i hnot
      cases h2
      exact uniqueTitleAuthor_append_singleton reviews r h1
        (Bool.not_eq_true _ ▸ Bool.of_not_eq_true hnot)

/-- A stored review by Alice on title 1. -/
def r0 : Review := { title := 1, author := "alice", text := "good", score := 8 }

/-- A review by Bob on title 2, absent from the table below. -/
def r1 : Review := { title := 2, author := "bob", text := "ok", score := 5 }

/-- C6 witness: with Alice's review of title 1 stored, her second POST is
rejected, a PATCH passes the duplicate check, and inserting Bob's review
of title 2 under the constraint keeps the table unique. -/
theorem C6_witness :
    ReviewSerializer.validate [r0] 1 "alice" Method.POST = false
      ∧ ReviewSerializer.validate [r0] 1 "alice" Method.PATCH = true
      ∧ uniqueTitleAuthor [r0, r1] = true := by
  refine ⟨C6_review_uniqueness.1 [r0] 1 "alice" (by decide),
    C6_review_uniqueness.2.1 [r0] 1 "alice" Method.PATCH (by decide),
    C6_review_uniqueness.2.2.2 [r0] r1 [r0, r1] (by decide) (by decide)⟩

/-- C7: a PATCH to /v1/users/me/ by an actor whose role is the plain user
role succeeds whenever the payload passes validation, and the stored role
afterwards is "user" regardless of the supplied role value — escalation is
blocked by resetting the role, not by rejecting the request. -/
theorem C7_me_patch_role_reset (actor : User) (payload_role : Option String)
    (hrole : actor.role = USER)
    (hvalid : ∀ r, payload_role = some r → r ∈ CHOICES) :
    ∃ u, UserViewSet.user_data_patch actor payload_role = some u
      ∧ u.role = USER := by
  cases payload_role with
  | none =>
      refine ⟨{ actor with role := USER }, ?_, rfl⟩
      simp [UserViewSet.user_data_patch, User.is_user, hrole]
  | some r =>
      have hr := hvalid r rfl
      refine ⟨{ actor with role := USER }, ?_, rfl⟩
      simp [UserViewSet.user_data_patch, User.is_user, hrole, hr]

/-- C7 witness: plain-user Alice patching herself with role "admin" still
ends with stored role "user". -/
theorem C7_witness :
    ∃ u, UserViewSet.user_data_patch alice (some ADMIN) = some u
      ∧ u.role = USER :=
  C7_me_patch_role_reset alice (some ADMIN) rfl
    (by intro r h; cases h; decide)

/-- C10: the role reset applies only to actors whose role is exactly
"user" — any actor with a different role (moderator or admin) who patches
/v1/users/me/ with a declared role value gets that value stored
unchanged. -/
theorem C10_non_user_patch_stores_payload_role (actor : User) (r : String)
    (hrole : actor.role ≠ USER) (hr : r ∈ CHOICES) :
    UserViewSet.user_data_patch actor (some r) = some { actor with role := r } := by
  simp [UserViewSet.user_data_patch, User.is_user, hrole, hr]

/-- C10 witness: a moderator patching themselves with role "admin" gets
role "admin" stored — self-escalation through /v1/users/me/. -/
theorem C10_witness :
    UserViewSet.user_data_patch modUser (some ADMIN)
      = some { modUser with role := ADMIN } :=
  C10_non_user_patch_stores_payload_role modUser ADMIN (by decide) (by decide)

end Yamdb
